import Mathlib

/-!
Shallow embedding of `src/model/models.py` (islam-nassar/sem-match).

The file defines a pre-activation Wide-ResNet family plus ResNet-based
embedding-head wrappers.  The Python code is declarative layer composition:
we embed

* each layer constructor (`nn.Conv2d`, `BatchNorm2d`, `nn.Linear`,
  `nn.Sequential(Linear, ReLU, Linear)`, `nn.Identity`) as a record of its
  hyperparameters, together with a symbolic weight-initialisation state;
* each `__init__` as a (possibly failing) Lean function returning
  `Except PyError _` (a Python `assert` failure becomes
  `PyError.assertionError`, an attribute lookup on a module that lacks it
  becomes `PyError.attributeError`);
* each `forward` twice: once at shape level (`Option`-valued functions on
  tensor shapes, `none` meaning the underlying library raises) and once
  symbolically as a tensor-expression tree (`TExpr`) recording the exact
  computation graph.
-/

namespace SemMatch

/-- Symbolic initialisation state of a convolution weight: either the
framework default, or the scaled-normal / He-style `kaiming_normal_`
initialisation performed by `init_weight` (models.py lines 159-166). -/
inductive ConvInit where
  | torchDefault
  | kaimingNormal
deriving DecidableEq, Repr

/-- Symbolic initialisation state of a `BatchNorm2d` layer: framework
default, or weight filled with 1 and bias zeroed (models.py lines 167-169). -/
inductive NormInit where
  | torchDefault
  | unitScaleZeroBias
deriving DecidableEq, Repr

/-- Symbolic initialisation state of an `nn.Linear` bias: framework default
(uniform, not zero), or explicitly zeroed (models.py lines 170-171). -/
inductive LinInit where
  | torchDefault
  | biasZeroed
deriving DecidableEq, Repr

/-- Hyperparameters of an `nn.Conv2d` layer. -/
structure Conv2dCfg where
  in_chan : Nat
  out_chan : Nat
  kernel : Nat
  stride : Nat
  padding : Nat
  bias : Bool
  winit : ConvInit
deriving DecidableEq, Repr

/-- Hyperparameters of a `BatchNorm2d` layer. -/
structure BatchNormCfg where
  features : Nat
  momentum : Rat
  winit : NormInit
deriving DecidableEq, Repr

/-- Hyperparameters of an `nn.Linear` layer. -/
structure LinearCfg where
  in_features : Nat
  out_features : Nat
  bias : Bool
  bias_winit : LinInit
deriving DecidableEq, Repr

/-- Python-level construction failures: a failed `assert` (carrying the
asserted condition) or an `AttributeError`. -/
inductive PyError where
  | assertionError (cond : String)
  | attributeError (msg : String)
deriving DecidableEq, Repr

/-- The classifier / head modules occurring in models.py: a single
`nn.Linear`, an `nn.Sequential(Linear, ReLU(inplace), Linear)`, or
`nn.Identity`. -/
inductive PyModule where
  | linear (l : LinearCfg)
  | seqLinearReluLinear (l1 l2 : LinearCfg)
  | identity
deriving DecidableEq, Repr

/-- `nn.Conv2d(in_chan, out_chan, kernel_size, stride, padding, bias)`
with default (not yet re-initialised) weights. -/
def nnConv2d (in_chan out_chan kernel stride padding : Nat) (bias : Bool) : Conv2dCfg :=
  ⟨in_chan, out_chan, kernel, stride, padding, bias, ConvInit.torchDefault⟩

/-- `BatchNorm2d(features, momentum=0.001)` with default weights. -/
def nnBatchNorm2d (features : Nat) : BatchNormCfg :=
  ⟨features, 1/1000, NormInit.torchDefault⟩

/-- `nn.Linear(in_features, out_features)` (bias defaults to `True`,
bias initialised by the framework default, which is not the zero vector). -/
def nnLinear (in_features out_features : Nat) : LinearCfg :=
  ⟨in_features, out_features, true, LinInit.torchDefault⟩

/-- Python attribute access `module.in_features`: only `nn.Linear` has it;
on `nn.Sequential` or `nn.Identity` it raises `AttributeError`. -/
def PyModule.in_features : PyModule → Except PyError Nat
  | PyModule.linear l => Except.ok l.in_features
  | PyModule.seqLinearReluLinear _ _ =>
      Except.error (PyError.attributeError "Sequential object has no attribute in_features")
  | PyModule.identity =>
      Except.error (PyError.attributeError "Identity object has no attribute in_features")

/-- The submodules built by `BasicBlockPreAct.__init__` (models.py 17-33).
`relu1`/`relu2` are parameterless `LeakyReLU(0.1)` activations and are left
implicit; `dropout` stores the rate when a Dropout module is present. -/
structure BasicBlockPreAct where
  bn1 : BatchNormCfg
  conv1 : Conv2dCfg
  bn2 : BatchNormCfg
  dropout : Option Rat
  conv2 : Conv2dCfg
  downsample : Option Conv2dCfg
  pre_res_act : Bool
deriving DecidableEq, Repr

/-- `BasicBlockPreAct.__init__(in_chan, out_chan, drop_rate, stride,
pre_res_act)` (models.py 18-33): `dropout` is present unless
`drop_rate == 0`, and `downsample` is a 1x1 convolution with the block
stride, present exactly when `in_chan != out_chan or stride != 1`. -/
def BasicBlockPreAct.init (in_chan out_chan : Nat) (drop_rate : Rat)
    (stride : Nat) (pre_res_act : Bool) : BasicBlockPreAct :=
  { bn1 := nnBatchNorm2d in_chan
  , conv1 := nnConv2d in_chan out_chan 3 stride 1 false
  , bn2 := nnBatchNorm2d out_chan
  , dropout := if drop_rate = 0 then none else some drop_rate
  , conv2 := nnConv2d out_chan out_chan 3 1 1 false
  , downsample :=
      if in_chan ≠ out_chan ∨ stride ≠ 1 then
        some (nnConv2d in_chan out_chan 1 stride 0 false)
      else none
  , pre_res_act := pre_res_act }

/-- Effect of `init_weight` on one `nn.Conv2d` (models.py 160-166). -/
def Conv2dCfg.applyKaiming (c : Conv2dCfg) : Conv2dCfg :=
  { c with winit := ConvInit.kaimingNormal }

/-- Effect of `init_weight` on one `BatchNorm2d` (models.py 167-169). -/
def BatchNormCfg.applyUnitZero (b : BatchNormCfg) : BatchNormCfg :=
  { b with winit := NormInit.unitScaleZeroBias }

/-- Effect of `WideResnetBackbone.init_weight` restricted to the submodules
of one block (`self.modules()` recurses into every block). -/
def BasicBlockPreAct.applyInitWeight (b : BasicBlockPreAct) : BasicBlockPreAct :=
  { b with
      bn1 := b.bn1.applyUnitZero
    , conv1 := b.conv1.applyKaiming
    , bn2 := b.bn2.applyUnitZero
    , conv2 := b.conv2.applyKaiming
    , downsample := b.downsample.map Conv2dCfg.applyKaiming }

/-- The submodules built by `WideResnetBackbone.__init__` (models.py 67-108). -/
structure WideResnetBackbone where
  k : Nat
  n : Nat
  conv1 : Conv2dCfg
  layer1 : List BasicBlockPreAct
  layer2 : List BasicBlockPreAct
  layer3 : List BasicBlockPreAct
  bn_last : BatchNormCfg
deriving DecidableEq, Repr

/-- `WideResnetBackbone.create_layer` (models.py 110-134): one leading block
with the given stride and `pre_res_act`, followed by `bnum - 1` blocks with
stride 1, `pre_res_act=False` and equal channel counts. -/
def WideResnetBackbone.create_layer (in_chan out_chan bnum stride : Nat)
    (drop_rate : Rat) (pre_res_act : Bool) : List BasicBlockPreAct :=
  BasicBlockPreAct.init in_chan out_chan drop_rate stride pre_res_act ::
    (List.range (bnum - 1)).map
      (fun _ => BasicBlockPreAct.init out_chan out_chan drop_rate 1 false)

/-- The module tree built by `WideResnetBackbone.__init__` before the final
`self.init_weight()` call (models.py 67-106).  `n_blocks = (n - 4) // 6`
(Python floor division, hence the `Int` computation) and the channel widths
are `n_layers = [16] + [k * 16 * 2 ** i for i in range(3)]`. -/
def WideResnetBackbone.initImpl (k n : Nat) (drop_rate : Rat) : WideResnetBackbone :=
  let n_blocks : Nat := (((n : Int) - 4) / 6).toNat
  let w0 : Nat := 16
  let w1 : Nat := k * 16 * 2 ^ 0
  let w2 : Nat := k * 16 * 2 ^ 1
  let w3 : Nat := k * 16 * 2 ^ 2
  { k := k, n := n
  , conv1 := nnConv2d 3 w0 3 1 1 false
  , layer1 := WideResnetBackbone.create_layer w0 w1 n_blocks 1 drop_rate true
  , layer2 := WideResnetBackbone.create_layer w1 w2 n_blocks 2 drop_rate false
  , layer3 := WideResnetBackbone.create_layer w2 w3 n_blocks 2 drop_rate false
  , bn_last := nnBatchNorm2d w3 }

/-- `WideResnetBackbone.init_weight` (models.py 147-171): applied to every
submodule reachable from the backbone (`self.modules()`); re-initialises
every convolution, sets every batch norm to unit scale / zero bias, and
would zero every linear bias (the backbone contains no linear layer). -/
def WideResnetBackbone.init_weight (bb : WideResnetBackbone) : WideResnetBackbone :=
  { bb with
      conv1 := bb.conv1.applyKaiming
    , layer1 := bb.layer1.map BasicBlockPreAct.applyInitWeight
    , layer2 := bb.layer2.map BasicBlockPreAct.applyInitWeight
    , layer3 := bb.layer3.map BasicBlockPreAct.applyInitWeight
    , bn_last := bb.bn_last.applyUnitZero }

/-- `WideResnetBackbone.__init__(k, n, drop_rate)` (models.py 67-108):
`assert (self.n - 4) % 6 == 0` (Python modulo on possibly negative values,
hence `Int`), then module construction, then `self.init_weight()`. -/
def WideResnetBackbone.init (k n : Nat) (drop_rate : Rat) :
    Except PyError WideResnetBackbone :=
  if ((n : Int) - 4) % 6 = 0 then
    Except.ok (WideResnetBackbone.initImpl k n drop_rate).init_weight
  else
    Except.error (PyError.assertionError "(self.n - 4) % 6 == 0")

/-- The modules built by `WideResnet.__init__` (models.py 179-189). -/
structure WideResnet where
  n_layers : Nat
  k : Nat
  backbone : WideResnetBackbone
  classifier : PyModule
deriving DecidableEq, Repr

/-- `WideResnet.__init__(n_classes, k, n)` (models.py 179-189): builds the
backbone (drop rate 0 by default), then a single `Linear(64*k, n_classes)`
classifier when `k < 4`, else a two-layer
`Sequential(Linear(64*k, 64*k//2), ReLU, Linear(64*k//2, n_classes))`.
No weight-initialisation call happens here (`WideResnet.init_weight` is
never invoked during construction). -/
def WideResnet.init (n_classes k n : Nat) : Except PyError WideResnet :=
  match WideResnetBackbone.init k n 0 with
  | Except.error e => Except.error e
  | Except.ok bb =>
      Except.ok
        { n_layers := n, k := k, backbone := bb
        , classifier :=
            if k < 4 then
              PyModule.linear (nnLinear (64 * k) n_classes)
            else
              PyModule.seqLinearReluLinear
                (nnLinear (64 * k) (64 * k / 2))
                (nnLinear (64 * k / 2) n_classes) }

/-- The modules built by `WideResnetWithEmbeddingHead.__init__`
(models.py 250-259). -/
structure WideResnetWithEmbeddingHead where
  model_base : WideResnet
  k : Nat
  num_ftrs : Nat
  fc_classes : PyModule
  fc_emb : PyModule
deriving DecidableEq, Repr

/-- `WideResnetWithEmbeddingHead.__init__(num_classes, k, n, emb_dim)`
(models.py 250-259): builds a `WideResnet`, reads
`self.model_base.classifier.in_features` (an `AttributeError` when the
classifier is the two-layer `Sequential`), replaces the classifier with
`nn.Identity()`, and attaches the two heads. -/
def WideResnetWithEmbeddingHead.init (num_classes k n emb_dim : Nat) :
    Except PyError WideResnetWithEmbeddingHead :=
  match WideResnet.init num_classes k n with
  | Except.error e => Except.error e
  | Except.ok base =>
      match base.classifier.in_features with
      | Except.error e => Except.error e
      | Except.ok nf =>
          Except.ok
            { model_base := { base with classifier := PyModule.identity }
            , k := k
            , num_ftrs := nf
            , fc_classes := PyModule.linear (nnLinear nf num_classes)
            , fc_emb := PyModule.seqLinearReluLinear (nnLinear nf 2048) (nnLinear 2048 emb_dim) }

/-- `WideResnetWithEmbeddingHead.adapt(num_classes)` (models.py 267-268):
replaces `fc_classes` by a fresh `nn.Linear(self.num_ftrs, num_classes)`. -/
def WideResnetWithEmbeddingHead.adapt (m : WideResnetWithEmbeddingHead)
    (num_classes : Nat) : WideResnetWithEmbeddingHead :=
  { m with fc_classes := PyModule.linear (nnLinear m.num_ftrs num_classes) }

/-- Shape-level model of a torchvision ResNet (external library dependency,
not part of this repository): its convolutional trunk ends in a global
average pool producing a `feat_dim`-dimensional vector per image, which is
fed to the `fc` module. -/
structure TorchvisionResnet where
  feat_dim : Nat
  fc : PyModule
  pretrained : Bool
deriving DecidableEq, Repr

/-- `torchvision.models.resnet50(pretrained)`: 2048 pooled features,
`fc = Linear(2048, 1000)`. -/
def torchvision_resnet50 (pretrained : Bool) : TorchvisionResnet :=
  ⟨2048, PyModule.linear (nnLinear 2048 1000), pretrained⟩

/-- `torchvision.models.resnet18(pretrained)`: 512 pooled features,
`fc = Linear(512, 1000)`. -/
def torchvision_resnet18 (pretrained : Bool) : TorchvisionResnet :=
  ⟨512, PyModule.linear (nnLinear 512 1000), pretrained⟩

/-- The modules built by `ResNet50WithEmbeddingHead.__init__`
(models.py 204-210). -/
structure ResNet50WithEmbeddingHead where
  model_resnet : TorchvisionResnet
  num_ftrs : Nat
  fc_classes : PyModule
  fc_emb : PyModule
deriving DecidableEq, Repr

/-- `ResNet50WithEmbeddingHead.__init__(num_classes, emb_dim, pretrained)`
(models.py 204-210): reads `fc.in_features`, replaces `fc` by
`nn.Identity()`, attaches `fc_classes = Linear(num_ftrs, num_classes)` and
`fc_emb = Linear(num_ftrs, emb_dim)`. -/
def ResNet50WithEmbeddingHead.init (num_classes emb_dim : Nat) (pretrained : Bool) :
    Except PyError ResNet50WithEmbeddingHead :=
  let r := torchvision_resnet50 pretrained
  match r.fc.in_features with
  | Except.error e => Except.error e
  | Except.ok nf =>
      Except.ok
        { model_resnet := { r with fc := PyModule.identity }
        , num_ftrs := nf
        , fc_classes := PyModule.linear (nnLinear nf num_classes)
        , fc_emb := PyModule.linear (nnLinear nf emb_dim) }

/-- `ResNet50WithEmbeddingHead.adapt(num_classes)` (models.py 222-223). -/
def ResNet50WithEmbeddingHead.adapt (m : ResNet50WithEmbeddingHead)
    (num_classes : Nat) : ResNet50WithEmbeddingHead :=
  { m with fc_classes := PyModule.linear (nnLinear m.num_ftrs num_classes) }

/-- The modules built by `ResNet18WithEmbeddingHead.__init__`
(models.py 226-235). -/
structure ResNet18WithEmbeddingHead where
  model_resnet : TorchvisionResnet
  num_ftrs : Nat
  fc_classes : PyModule
  fc_emb : PyModule
deriving DecidableEq, Repr

/-- `ResNet18WithEmbeddingHead.__init__(num_classes, emb_dim, pretrained)`
(models.py 226-235): like the ResNet-50 variant but the embedding head is
`Sequential(Linear(num_ftrs, 2048), ReLU, Linear(2048, emb_dim))`. -/
def ResNet18WithEmbeddingHead.init (num_classes emb_dim : Nat) (pretrained : Bool) :
    Except PyError ResNet18WithEmbeddingHead :=
  let r := torchvision_resnet18 pretrained
  match r.fc.in_features with
  | Except.error e => Except.error e
  | Except.ok nf =>
      Except.ok
        { model_resnet := { r with fc := PyModule.identity }
        , num_ftrs := nf
        , fc_classes := PyModule.linear (nnLinear nf num_classes)
        , fc_emb := PyModule.seqLinearReluLinear (nnLinear nf 2048) (nnLinear 2048 emb_dim) }

/-- `ResNet18WithEmbeddingHead.adapt(num_classes)` (models.py 244-245). -/
def ResNet18WithEmbeddingHead.adapt (m : ResNet18WithEmbeddingHead)
    (num_classes : Nat) : ResNet18WithEmbeddingHead :=
  { m with fc_classes := PyModule.linear (nnLinear m.num_ftrs num_classes) }

/-! ### Shape-level semantics of the forward passes

Shapes of the tensors flowing through the graphs: `Shape4` is an
`[N, C, H, W]` image batch, `Shape2` an `[N, D]` feature batch.  Every
layer application is `Option`-valued; `none` models the underlying
framework raising (channel mismatch, output spatial size below 1, feature
dimension mismatch). -/

/-- Shape of an `[N, C, H, W]` tensor. -/
structure Shape4 where
  n : Nat
  c : Nat
  h : Nat
  w : Nat
deriving DecidableEq, Repr

/-- Shape of an `[N, D]` tensor. -/
structure Shape2 where
  n : Nat
  d : Nat
deriving DecidableEq, Repr

/-- Output spatial extent of a convolution along one dimension:
`floor((d + 2*padding - kernel) / stride) + 1`, failing (as the framework
does) when the result would be smaller than 1. -/
def convOutDim (kernel stride padding d : Nat) : Option Nat :=
  if 1 ≤ ((d : Int) + 2 * padding - kernel) / stride + 1 then
    some ((((d : Int) + 2 * padding - kernel) / stride + 1).toNat)
  else none

/-- Shape semantics of an `nn.Conv2d` application: requires the input
channel count to match, convolves both spatial dimensions. -/
def Conv2dCfg.outShape (c : Conv2dCfg) (x : Shape4) : Option Shape4 :=
  if x.c = c.in_chan then
    match convOutDim c.kernel c.stride c.padding x.h,
          convOutDim c.kernel c.stride c.padding x.w with
    | some h2, some w2 => some ⟨x.n, c.out_chan, h2, w2⟩
    | _, _ => none
  else none

/-- Shape semantics of a `BatchNorm2d` application: requires the channel
count to match and preserves the shape. -/
def BatchNormCfg.outShape (bncfg : BatchNormCfg) (x : Shape4) : Option Shape4 :=
  if x.c = bncfg.features then some x else none

/-- Shape semantics of `BasicBlockPreAct.forward` (models.py 35-50).
The activations and the optional dropout preserve shapes; the final
`shortcut + residual` requires both operands to have equal shapes. -/
def BasicBlockPreAct.forwardShape (b : BasicBlockPreAct) (x : Shape4) : Option Shape4 :=
  match b.bn1.outShape x with
  | none => none
  | some act1 =>
    match b.conv1.outShape act1 with
    | none => none
    | some r1 =>
      match b.bn2.outShape r1 with
      | none => none
      | some r2 =>
        match b.conv2.outShape r2 with
        | none => none
        | some residual =>
          match (match b.downsample with
                 | some dcfg => dcfg.outShape (if b.pre_res_act then act1 else x)
                 | none => some (if b.pre_res_act then act1 else x)) with
          | none => none
          | some shortcut =>
              if shortcut = residual then some residual else none

/-- Shape semantics of running an `nn.Sequential` of blocks. -/
def seqForwardShape (blocks : List BasicBlockPreAct) (x : Option Shape4) : Option Shape4 :=
  blocks.foldl (fun acc b => acc.bind b.forwardShape) x

/-- Shape semantics of `WideResnetBackbone.forward` (models.py 136-145):
returns the shapes of `(feat2, feat4)`; `relu_last` preserves the shape. -/
def WideResnetBackbone.forwardShape (bb : WideResnetBackbone) (x : Shape4) :
    Option (Shape4 × Shape4) :=
  match bb.conv1.outShape x with
  | none => none
  | some feat =>
    match seqForwardShape bb.layer1 (some feat) with
    | none => none
    | some f1 =>
      match seqForwardShape bb.layer2 (some f1) with
      | none => none
      | some feat2 =>
        match seqForwardShape bb.layer3 (some feat2) with
        | none => none
        | some f4 =>
          match bb.bn_last.outShape f4 with
          | none => none
          | some feat4 => some (feat2, feat4)

/-- Shape semantics of applying a classifier / head module to an `[N, D]`
batch: `nn.Linear` requires `D = in_features`; the two-layer `Sequential`
additionally chains through its hidden width; `nn.Identity` is the
identity. -/
def PyModule.applyShape : PyModule → Shape2 → Option Shape2
  | PyModule.linear l, s =>
      if s.d = l.in_features then some ⟨s.n, l.out_features⟩ else none
  | PyModule.seqLinearReluLinear l1 l2, s =>
      if s.d = l1.in_features then
        if l1.out_features = l2.in_features then some ⟨s.n, l2.out_features⟩ else none
      else none
  | PyModule.identity, s => some s

/-- Shape semantics of `WideResnet.forward` (models.py 191-195):
`feat = backbone(x)[-1]`, then `torch.mean(feat, dim=(2, 3))` (global
average pool over both spatial dimensions, giving `[N, C]`), then the
classifier. -/
def WideResnet.forwardShape (m : WideResnet) (x : Shape4) : Option Shape2 :=
  match m.backbone.forwardShape x with
  | none => none
  | some (_, feat4) => m.classifier.applyShape ⟨feat4.n, feat4.c⟩

/-- Shape semantics of `WideResnetWithEmbeddingHead.forward`
(models.py 260-264): returns the triple `(out1, out2, x)` of shapes for
`(fc_classes(x), fc_emb(x), x)` where `x = model_base(input)`. -/
def WideResnetWithEmbeddingHead.forwardShape (m : WideResnetWithEmbeddingHead)
    (input : Shape4) : Option (Shape2 × Shape2 × Shape2) :=
  match m.model_base.forwardShape input with
  | none => none
  | some x =>
    match m.fc_classes.applyShape x, m.fc_emb.applyShape x with
    | some o1, some o2 => some (o1, o2, x)
    | _, _ => none

/-- Shape semantics of a torchvision ResNet forward (shape-level model of
the external library): an `[N, 3, H, W]` batch with `H, W ≥ 1` is reduced
to an `[N, feat_dim]` batch and fed through `fc`. -/
def TorchvisionResnet.forwardShape (r : TorchvisionResnet) (x : Shape4) : Option Shape2 :=
  if x.c = 3 ∧ 1 ≤ x.h ∧ 1 ≤ x.w then r.fc.applyShape ⟨x.n, r.feat_dim⟩ else none

/-- Shape semantics of `ResNet50WithEmbeddingHead.forward`
(models.py 215-219): the triple `(out1, out2, x)`. -/
def ResNet50WithEmbeddingHead.forwardShape (m : ResNet50WithEmbeddingHead)
    (input : Shape4) : Option (Shape2 × Shape2 × Shape2) :=
  match m.model_resnet.forwardShape input with
  | none => none
  | some x =>
    match m.fc_classes.applyShape x, m.fc_emb.applyShape x with
    | some o1, some o2 => some (o1, o2, x)
    | _, _ => none

/-- Shape semantics of `ResNet18WithEmbeddingHead.forward`
(models.py 237-241): the triple `(out1, out2, x)`. -/
def ResNet18WithEmbeddingHead.forwardShape (m : ResNet18WithEmbeddingHead)
    (input : Shape4) : Option (Shape2 × Shape2 × Shape2) :=
  match m.model_resnet.forwardShape input with
  | none => none
  | some x =>
    match m.fc_classes.applyShape x, m.fc_emb.applyShape x with
    | some o1, some o2 => some (o1, o2, x)
    | _, _ => none

/-! ### Symbolic (computation-graph) semantics of the block forward -/

/-- Symbolic tensor expressions: the computation graph a forward pass
builds from its input. -/
inductive TExpr where
  | input
  | bn (cfg : BatchNormCfg) (e : TExpr)
  | relu (e : TExpr)
  | conv (cfg : Conv2dCfg) (e : TExpr)
  | dropout (p : Rat) (e : TExpr)
  | add (a b : TExpr)
deriving DecidableEq, Repr

/-- The residual branch of `BasicBlockPreAct.forward` (models.py 36-43):
normalise, activate, convolve, normalise, activate, optional dropout,
convolve. -/
def BasicBlockPreAct.residualPart (b : BasicBlockPreAct) (x : TExpr) : TExpr :=
  let bn1 := TExpr.bn b.bn1 x
  let act1 := TExpr.relu bn1
  let r1 := TExpr.conv b.conv1 act1
  let r2 := TExpr.bn b.bn2 r1
  let r3 := TExpr.relu r2
  let r4 := match b.dropout with
            | some p => TExpr.dropout p r3
            | none => r3
  TExpr.conv b.conv2 r4

/-- The value the shortcut branch starts from (models.py 45):
`act1 if self.pre_res_act else x`. -/
def BasicBlockPreAct.shortcutSource (b : BasicBlockPreAct) (x : TExpr) : TExpr :=
  if b.pre_res_act then TExpr.relu (TExpr.bn b.bn1 x) else x

/-- The full shortcut branch (models.py 45-47): the shortcut source, with
the 1x1 `downsample` projection applied when present. -/
def BasicBlockPreAct.shortcutPart (b : BasicBlockPreAct) (x : TExpr) : TExpr :=
  match b.downsample with
  | some dcfg => TExpr.conv dcfg (b.shortcutSource x)
  | none => b.shortcutSource x

/-- `BasicBlockPreAct.forward` (models.py 35-50): `out = shortcut + residual`. -/
def BasicBlockPreAct.forward (b : BasicBlockPreAct) (x : TExpr) : TExpr :=
  TExpr.add (b.shortcutPart x) (b.residualPart x)

/-- Running an `nn.Sequential` of blocks symbolically. -/
def seqForward (blocks : List BasicBlockPreAct) (x : TExpr) : TExpr :=
  blocks.foldl (fun e b => b.forward e) x

/-- `WideResnetBackbone.forward` (models.py 136-145), symbolically:
returns the pair `(feat2, feat4)` where `feat4` has `bn_last` and
`relu_last` applied on top of stage 3. -/
def WideResnetBackbone.forward (bb : WideResnetBackbone) (x : TExpr) : TExpr × TExpr :=
  let feat := TExpr.conv bb.conv1 x
  let feat1 := seqForward bb.layer1 feat
  let feat2 := seqForward bb.layer2 feat1
  let feat4 := seqForward bb.layer3 feat2
  let feat4b := TExpr.bn bb.bn_last feat4
  let feat4r := TExpr.relu feat4b
  (feat2, feat4r)

/-! ### Derived definitions used in the statements -/

/-- Closed form of the output spatial extent of the 3x3 (padding-1) and 1x1
(padding-0) convolutions used in the backbone: `floor((d - 1)/stride) + 1`. -/
def spatialOut (stride d : Nat) : Nat :=
  (((d : Int) - 1) / (stride : Int) + 1).toNat

/-- The (input-channels, output-channels, stride) signature of a block:
its first 3x3 convolution carries the block stride. -/
def blockSig (b : BasicBlockPreAct) : Nat × Nat × Nat :=
  (b.conv1.in_chan, b.conv1.out_chan, b.conv1.stride)

/-- All `nn.Conv2d` submodules of a block (`conv1`, `conv2`, and the
`downsample` projection when present). -/
def BasicBlockPreAct.convList (b : BasicBlockPreAct) : List Conv2dCfg :=
  [b.conv1, b.conv2] ++ b.downsample.toList

/-- All `BatchNorm2d` submodules of a block. -/
def BasicBlockPreAct.bnList (b : BasicBlockPreAct) : List BatchNormCfg :=
  [b.bn1, b.bn2]

/-- All `nn.Conv2d` submodules reachable from the backbone
(what `self.modules()` visits in `init_weight`). -/
def WideResnetBackbone.convList (bb : WideResnetBackbone) : List Conv2dCfg :=
  bb.conv1 :: ((bb.layer1 ++ bb.layer2 ++ bb.layer3).map BasicBlockPreAct.convList).flatten

/-- All `BatchNorm2d` submodules reachable from the backbone. -/
def WideResnetBackbone.bnList (bb : WideResnetBackbone) : List BatchNormCfg :=
  ((bb.layer1 ++ bb.layer2 ++ bb.layer3).map BasicBlockPreAct.bnList).flatten ++ [bb.bn_last]

/-- The initialisation states of the `nn.Linear` biases inside a module. -/
def PyModule.linearBiasInits : PyModule → List LinInit
  | PyModule.linear l => [l.bias_winit]
  | PyModule.seqLinearReluLinear l1 l2 => [l1.bias_winit, l2.bias_winit]
  | PyModule.identity => []

/-- The initialisation states of the classifier biases of a constructed
`WideResnet`, `none` when construction fails. -/
def wideResnetClassifierBiasInits (n_classes k n : Nat) : Option (List LinInit) :=
  match WideResnet.init n_classes k n with
  | Except.ok m => some m.classifier.linearBiasInits
  | Except.error _ => none

/-- The per-stage block counts of a constructed backbone, `none` when
construction fails. -/
def backboneStageLens (k n : Nat) (dr : Rat) : Option (Nat × Nat × Nat) :=
  match WideResnetBackbone.init k n dr with
  | Except.ok bb => some (bb.layer1.length, bb.layer2.length, bb.layer3.length)
  | Except.error _ => none

/-- The first block of stage 1 of a constructed backbone, `none` when
construction fails. -/
def backboneFirstBlock (k n : Nat) (dr : Rat) : Option BasicBlockPreAct :=
  match WideResnetBackbone.init k n dr with
  | Except.ok bb => bb.layer1.head?
  | Except.error _ => none

/-- Whether a Python error is an `AttributeError`. -/
def PyError.isAttributeError : PyError → Bool
  | PyError.attributeError _ => true
  | PyError.assertionError _ => false

/-- The error produced by `WideResnetWithEmbeddingHead` construction,
`none` when construction succeeds. -/
def wrnWEHInitError (num_classes k n emb_dim : Nat) : Option PyError :=
  match WideResnetWithEmbeddingHead.init num_classes k n emb_dim with
  | Except.ok _ => none
  | Except.error e => some e

/-- Size of a symbolic tensor expression (used to separate a term from a
strict subterm). -/
def TExpr.size : TExpr → Nat
  | TExpr.input => 1
  | TExpr.bn _ e => e.size + 1
  | TExpr.relu e => e.size + 1
  | TExpr.conv _ e => e.size + 1
  | TExpr.dropout _ e => e.size + 1
  | TExpr.add a b => a.size + b.size + 1

/-! ### Helper lemmas -/

lemma spatialOut_one (d : Nat) : spatialOut 1 d = d := by
  unfold spatialOut; omega

lemma spatialOut_pos (stride d : Nat) (hd : 1 ≤ d) : 1 ≤ spatialOut stride d := by
  unfold spatialOut
  have h0 : (0 : Int) ≤ ((d : Int) - 1) / (stride : Int) :=
    Int.ediv_nonneg (by omega) (by positivity)
  omega

lemma convOutDim_k3 (s d : Nat) (hd : 1 ≤ d) :
    convOutDim 3 s 1 d = some (spatialOut s d) := by
  have h0 : (0 : Int) ≤ ((d : Int) - 1) / (s : Int) :=
    Int.ediv_nonneg (by omega) (by positivity)
  have he : (d : Int) + 2 * ((1 : Nat) : Int) - ((3 : Nat) : Int) = (d : Int) - 1 := by
    push_cast; ring
  unfold convOutDim spatialOut
  rw [he, if_pos (by omega)]

lemma convOutDim_k1 (s d : Nat) (hd : 1 ≤ d) :
    convOutDim 1 s 0 d = some (spatialOut s d) := by
  have h0 : (0 : Int) ≤ ((d : Int) - 1) / (s : Int) :=
    Int.ediv_nonneg (by omega) (by positivity)
  have he : (d : Int) + 2 * ((0 : Nat) : Int) - ((1 : Nat) : Int) = (d : Int) - 1 := by
    push_cast; ring
  unfold convOutDim spatialOut
  rw [he, if_pos (by omega)]

/-- Shape of one freshly built (and weight-initialised) block on a
channel-matching input with positive spatial extent. -/
lemma block_forwardShape (ic oc s N h w : Nat) (dr : Rat) (pra : Bool)
    (hh : 1 ≤ h) (hw : 1 ≤ w) :
    ((BasicBlockPreAct.init ic oc dr s pra).applyInitWeight).forwardShape ⟨N, ic, h, w⟩
      = some ⟨N, oc, spatialOut s h, spatialOut s w⟩ := by
  have hsh : 1 ≤ spatialOut s h := spatialOut_pos s h hh
  have hsw : 1 ≤ spatialOut s w := spatialOut_pos s w hw
  by_cases hd : ic ≠ oc ∨ s ≠ 1
  · simp [BasicBlockPreAct.init, BasicBlockPreAct.applyInitWeight,
      BasicBlockPreAct.forwardShape, Conv2dCfg.applyKaiming, BatchNormCfg.applyUnitZero,
      nnConv2d, nnBatchNorm2d, BatchNormCfg.outShape, Conv2dCfg.outShape, hd,
      convOutDim_k3 s h hh, convOutDim_k3 s w hw,
      convOutDim_k3 1 (spatialOut s h) hsh, convOutDim_k3 1 (spatialOut s w) hsw,
      convOutDim_k1 s h hh, convOutDim_k1 s w hw,
      spatialOut_one]
  · have hic : ic = oc := by tauto
    have hs1 : s = 1 := by tauto
    subst hic; subst hs1
    simp [BasicBlockPreAct.init, BasicBlockPreAct.applyInitWeight,
      BasicBlockPreAct.forwardShape, Conv2dCfg.applyKaiming, BatchNormCfg.applyUnitZero,
      nnConv2d, nnBatchNorm2d, BatchNormCfg.outShape, Conv2dCfg.outShape,
      convOutDim_k3 1 h hh, convOutDim_k3 1 w hw,
      convOutDim_k3 1 (spatialOut 1 h) hsh, convOutDim_k3 1 (spatialOut 1 w) hsw,
      spatialOut_one]

lemma seqForwardShape_cons (b : BasicBlockPreAct) (bs : List BasicBlockPreAct)
    (x : Option Shape4) :
    seqForwardShape (b :: bs) x = seqForwardShape bs (x.bind b.forwardShape) := rfl

/-- The stride-1 tail blocks of a stage preserve the shape. -/
lemma seq_replicate_shape (oc m N h w : Nat) (dr : Rat) (hh : 1 ≤ h) (hw : 1 ≤ w) :
    seqForwardShape ((List.replicate m (BasicBlockPreAct.init oc oc dr 1 false)).map
      BasicBlockPreAct.applyInitWeight) (some ⟨N, oc, h, w⟩) = some ⟨N, oc, h, w⟩ := by
  induction m with
  | zero => rfl
  | succ m ih =>
      rw [List.replicate_succ, List.map_cons, seqForwardShape_cons]
      have hb := block_forwardShape oc oc 1 N h w dr false hh hw
      rw [spatialOut_one, spatialOut_one] at hb
      simpa [hb] using ih

/-- Shape of one full stage built by `create_layer` (after weight init):
channels go `in_chan` to `out_chan`, both spatial extents are convolved once
with the stage stride. -/
lemma create_layer_shape (ic oc bnum s N h w : Nat) (dr : Rat) (pra : Bool)
    (hh : 1 ≤ h) (hw : 1 ≤ w) :
    seqForwardShape ((WideResnetBackbone.create_layer ic oc bnum s dr pra).map
      BasicBlockPreAct.applyInitWeight) (some ⟨N, ic, h, w⟩)
      = some ⟨N, oc, spatialOut s h, spatialOut s w⟩ := by
  rw [WideResnetBackbone.create_layer, List.map_cons, seqForwardShape_cons]
  have hmap : (List.range (bnum - 1)).map
      (fun _ => BasicBlockPreAct.init oc oc dr 1 false)
      = List.replicate (bnum - 1) (BasicBlockPreAct.init oc oc dr 1 false) := by
    simp [List.map_const]
  rw [hmap]
  have hb := block_forwardShape ic oc s N h w dr pra hh hw
  simp only [Option.some_bind, hb]
  exact seq_replicate_shape oc (bnum - 1) N _ _ dr (spatialOut_pos s h hh) (spatialOut_pos s w hw)

/-- Successful construction and full shape computation of the backbone:
for a valid depth the constructor returns the weight-initialised module
tree, whose forward pass maps `[N, 3, h, w]` to the stage-2 map with
`32 k` channels and the stage-3 map with `64 k` channels, each spatial
dimension being strided once per downsampling stage. -/
lemma backbone_ok_forwardShape (k n N h w : Nat) (dr : Rat)
    (hval : ((n : Int) - 4) % 6 = 0) (hh : 1 ≤ h) (hw : 1 ≤ w) :
    ∃ bb, WideResnetBackbone.init k n dr = Except.ok bb ∧
      bb = (WideResnetBackbone.initImpl k n dr).init_weight ∧
      bb.forwardShape ⟨N, 3, h, w⟩ =
        some (⟨N, 32 * k, spatialOut 2 h, spatialOut 2 w⟩,
              ⟨N, 64 * k, spatialOut 2 (spatialOut 2 h), spatialOut 2 (spatialOut 2 w)⟩) := by
  have hinit : WideResnetBackbone.init k n dr
      = Except.ok (WideResnetBackbone.initImpl k n dr).init_weight := by
    unfold WideResnetBackbone.init
    rw [if_pos hval]
  refine ⟨_, hinit, rfl, ?_⟩
  rw [show (32 : Nat) * k = k * 16 * 2 from by ring,
      show (64 : Nat) * k = k * 16 * 4 from by ring]
  have hh2 : 1 ≤ spatialOut 2 h := spatialOut_pos 2 h hh
  have hw2 : 1 ≤ spatialOut 2 w := spatialOut_pos 2 w hw
  have hc1 := convOutDim_k3 1 h hh
  have hc1w := convOutDim_k3 1 w hw
  rw [spatialOut_one] at hc1
  rw [spatialOut_one] at hc1w
  have hl1 := create_layer_shape 16 (k * 16)
      ((((n : Int) - 4) / 6).toNat) 1 N h w dr true hh hw
  rw [spatialOut_one, spatialOut_one] at hl1
  have hl2 := create_layer_shape (k * 16) (k * 16 * 2)
      ((((n : Int) - 4) / 6).toNat) 2 N h w dr false hh hw
  have hl3 := create_layer_shape (k * 16 * 2) (k * 16 * 4)
      ((((n : Int) - 4) / 6).toNat) 2 N (spatialOut 2 h) (spatialOut 2 w) dr false hh2 hw2
  simp [WideResnetBackbone.forwardShape, WideResnetBackbone.init_weight,
    WideResnetBackbone.initImpl, Conv2dCfg.applyKaiming, BatchNormCfg.applyUnitZero,
    nnConv2d, nnBatchNorm2d, Conv2dCfg.outShape, BatchNormCfg.outShape,
    hc1, hc1w, hl1, hl2, hl3]

/-- Successful construction and full shape computation of `WideResnet`:
for a valid depth the constructor succeeds, its classifier is the single
linear layer for `k < 4` and the two-layer head otherwise, and the forward
pass maps `[N, 3, h, w]` to `[N, n_classes]` logits. -/
lemma wideResnet_ok_forwardShape (n_classes k n N h w : Nat)
    (hval : ((n : Int) - 4) % 6 = 0) (hh : 1 ≤ h) (hw : 1 ≤ w) :
    ∃ m, WideResnet.init n_classes k n = Except.ok m ∧
      m.backbone = (WideResnetBackbone.initImpl k n 0).init_weight ∧
      m.classifier = (if k < 4 then PyModule.linear (nnLinear (64 * k) n_classes)
                      else PyModule.seqLinearReluLinear (nnLinear (64 * k) (64 * k / 2))
                             (nnLinear (64 * k / 2) n_classes)) ∧
      m.forwardShape ⟨N, 3, h, w⟩ = some ⟨N, n_classes⟩ := by
  obtain ⟨bb, hinit, hbb, hshape⟩ := backbone_ok_forwardShape k n N h w 0 hval hh hw
  have hminit : WideResnet.init n_classes k n = Except.ok
      { n_layers := n, k := k, backbone := bb
      , classifier := if k < 4 then PyModule.linear (nnLinear (64 * k) n_classes)
                      else PyModule.seqLinearReluLinear (nnLinear (64 * k) (64 * k / 2))
                             (nnLinear (64 * k / 2) n_classes) } := by
    unfold WideResnet.init
    rw [hinit]
  refine ⟨_, hminit, hbb, rfl, ?_⟩
  unfold WideResnet.forwardShape
  by_cases hk : k < 4
  · simp [hshape, hk, PyModule.applyShape, nnLinear]
  · simp [hshape, hk, PyModule.applyShape, nnLinear]

/-- Successful construction and full shape computation of
`WideResnetWithEmbeddingHead`: requires a valid depth and `k < 4` (so that
the wrapped classifier is a single linear layer exposing `in_features`). -/
lemma wrnWEH_ok_forwardShape (num_classes k n emb_dim N h w : Nat)
    (hval : ((n : Int) - 4) % 6 = 0) (hk : k < 4) (hh : 1 ≤ h) (hw : 1 ≤ w) :
    ∃ m, WideResnetWithEmbeddingHead.init num_classes k n emb_dim = Except.ok m ∧
      m.num_ftrs = 64 * k ∧
      m.fc_classes = PyModule.linear (nnLinear (64 * k) num_classes) ∧
      m.fc_emb = PyModule.seqLinearReluLinear (nnLinear (64 * k) 2048) (nnLinear 2048 emb_dim) ∧
      m.forwardShape ⟨N, 3, h, w⟩ = some (⟨N, num_classes⟩, ⟨N, emb_dim⟩, ⟨N, 64 * k⟩) := by
  obtain ⟨bb, hinit, hbbdef, hshape⟩ := backbone_ok_forwardShape k n N h w 0 hval hh hw
  have hbase : WideResnet.init num_classes k n = Except.ok
      { n_layers := n, k := k, backbone := bb
      , classifier := PyModule.linear (nnLinear (64 * k) num_classes) } := by
    unfold WideResnet.init
    rw [hinit, if_pos hk]
  have hwinit : WideResnetWithEmbeddingHead.init num_classes k n emb_dim = Except.ok
      { model_base := { n_layers := n, k := k, backbone := bb
                      , classifier := PyModule.identity }
      , k := k, num_ftrs := 64 * k
      , fc_classes := PyModule.linear (nnLinear (64 * k) num_classes)
      , fc_emb := PyModule.seqLinearReluLinear (nnLinear (64 * k) 2048) (nnLinear 2048 emb_dim) } := by
    unfold WideResnetWithEmbeddingHead.init
    rw [hbase]
    rfl
  refine ⟨_, hwinit, rfl, rfl, rfl, ?_⟩
  unfold WideResnetWithEmbeddingHead.forwardShape WideResnet.forwardShape
  simp [hshape, PyModule.applyShape, nnLinear]

/-- Successful construction and full shape computation of
`ResNet50WithEmbeddingHead`. -/
lemma resnet50WEH_ok_forwardShape (nc emb N h w : Nat) (pre : Bool)
    (hh : 1 ≤ h) (hw : 1 ≤ w) :
    ∃ m, ResNet50WithEmbeddingHead.init nc emb pre = Except.ok m ∧
      m.num_ftrs = 2048 ∧
      m.forwardShape ⟨N, 3, h, w⟩ = some (⟨N, nc⟩, ⟨N, emb⟩, ⟨N, 2048⟩) := by
  refine ⟨_, rfl, rfl, ?_⟩
  unfold ResNet50WithEmbeddingHead.forwardShape TorchvisionResnet.forwardShape
  simp [PyModule.applyShape, nnLinear, torchvision_resnet50, hh, hw]

/-- Successful construction and full shape computation of
`ResNet18WithEmbeddingHead`. -/
lemma resnet18WEH_ok_forwardShape (nc emb N h w : Nat) (pre : Bool)
    (hh : 1 ≤ h) (hw : 1 ≤ w) :
    ∃ m, ResNet18WithEmbeddingHead.init nc emb pre = Except.ok m ∧
      m.num_ftrs = 512 ∧
      m.forwardShape ⟨N, 3, h, w⟩ = some (⟨N, nc⟩, ⟨N, emb⟩, ⟨N, 512⟩) := by
  refine ⟨_, rfl, rfl, ?_⟩
  unfold ResNet18WithEmbeddingHead.forwardShape TorchvisionResnet.forwardShape
  simp [PyModule.applyShape, nnLinear, torchvision_resnet18, hh, hw]

lemma create_layer_sig (ic oc bnum s : Nat) (dr : Rat) (pra : Bool) :
    ((WideResnetBackbone.create_layer ic oc bnum s dr pra).map
      BasicBlockPreAct.applyInitWeight).map blockSig
      = (ic, oc, s) :: List.replicate (bnum - 1) (oc, oc, 1) := by
  unfold WideResnetBackbone.create_layer
  simp [List.map_map, Function.comp, blockSig, BasicBlockPreAct.init,
    BasicBlockPreAct.applyInitWeight, Conv2dCfg.applyKaiming, nnConv2d, List.map_const]

lemma create_layer_pra (ic oc bnum s : Nat) (dr : Rat) (pra : Bool) :
    ((WideResnetBackbone.create_layer ic oc bnum s dr pra).map
      BasicBlockPreAct.applyInitWeight).map BasicBlockPreAct.pre_res_act
      = pra :: List.replicate (bnum - 1) false := by
  unfold WideResnetBackbone.create_layer
  simp [List.map_map, Function.comp, BasicBlockPreAct.init,
    BasicBlockPreAct.applyInitWeight, List.map_const]

lemma applyIW_convList (b : BasicBlockPreAct) :
    ∀ c ∈ b.applyInitWeight.convList, c.winit = ConvInit.kaimingNormal := by
  intro c hc
  rcases b with ⟨bn1, c1, bn2, dp, c2, ds, pra⟩
  rcases ds with _ | d
  · simp [BasicBlockPreAct.convList, BasicBlockPreAct.applyInitWeight,
      Conv2dCfg.applyKaiming] at hc
    rcases hc with rfl | rfl <;> rfl
  · simp [BasicBlockPreAct.convList, BasicBlockPreAct.applyInitWeight,
      Conv2dCfg.applyKaiming] at hc
    rcases hc with rfl | rfl | rfl <;> rfl

lemma applyIW_bnList (b : BasicBlockPreAct) :
    ∀ c ∈ b.applyInitWeight.bnList, c.winit = NormInit.unitScaleZeroBias := by
  intro c hc
  rcases b with ⟨bn1, c1, bn2, dp, c2, ds, pra⟩
  simp [BasicBlockPreAct.bnList, BasicBlockPreAct.applyInitWeight,
    BatchNormCfg.applyUnitZero] at hc
  rcases hc with rfl | rfl <;> rfl

/-- After `init_weight`, every convolution in the backbone carries the
He-style initialisation. -/
lemma init_weight_convList (bb : WideResnetBackbone) :
    ∀ c ∈ bb.init_weight.convList, c.winit = ConvInit.kaimingNormal := by
  intro c hc
  simp only [WideResnetBackbone.convList, WideResnetBackbone.init_weight,
    List.mem_cons, List.mem_flatten, List.mem_map, List.mem_append] at hc
  rcases hc with rfl | ⟨l, ⟨b, hb, rfl⟩, hcl⟩
  · rfl
  · rcases hb with (hb | hb) | hb <;>
      obtain ⟨b0, _, rfl⟩ := hb <;>
      exact applyIW_convList b0 c hcl

/-- After `init_weight`, every batch norm in the backbone has unit scale
and zero bias. -/
lemma init_weight_bnList (bb : WideResnetBackbone) :
    ∀ c ∈ bb.init_weight.bnList, c.winit = NormInit.unitScaleZeroBias := by
  intro c hc
  simp only [WideResnetBackbone.bnList, WideResnetBackbone.init_weight,
    List.mem_append, List.mem_flatten, List.mem_map, List.mem_singleton] at hc
  rcases hc with ⟨l, ⟨b, hb, rfl⟩, hcl⟩ | rfl
  · rcases hb with (hb | hb) | hb <;>
      obtain ⟨b0, _, rfl⟩ := hb <;>
      exact applyIW_bnList b0 c hcl
  · rfl

lemma spatialOut_two_even (h : Nat) (he : h % 2 = 0) : spatialOut 2 h = h / 2 := by
  unfold spatialOut
  omega

lemma TExpr.conv_ne_self (c : Conv2dCfg) (x : TExpr) : TExpr.conv c x ≠ x := by
  intro h
  have hs := congrArg TExpr.size h
  simp [TExpr.size] at hs

/-- Computation rule for applying a fresh linear head at shape level. -/
lemma applyShape_linear (a b : Nat) (x : Shape2) :
    PyModule.applyShape (PyModule.linear (nnLinear a b)) x
      = if x.d = a then some ⟨x.n, b⟩ else none := rfl

/-- `adapt` does not change the embedding (second) component of the
forward output of `ResNet50WithEmbeddingHead`, provided the class head is
a linear layer fed from `num_ftrs` features (as construction guarantees). -/
lemma adapt_emb_shape_r50 (m : ResNet50WithEmbeddingHead) (nc0 nc : Nat)
    (hfc : m.fc_classes = PyModule.linear (nnLinear m.num_ftrs nc0)) (s : Shape4) :
    ((m.adapt nc).forwardShape s).map (fun t => t.2.1)
      = (m.forwardShape s).map (fun t => t.2.1) := by
  unfold ResNet50WithEmbeddingHead.forwardShape
  simp only [ResNet50WithEmbeddingHead.adapt]
  cases hmr : m.model_resnet.forwardShape s with
  | none => rfl
  | some x =>
      simp only [hfc, applyShape_linear]
      by_cases hd : x.d = m.num_ftrs
      · simp only [hd, if_pos rfl]
        cases he : PyModule.applyShape m.fc_emb x <;> simp [he]
      · simp only [if_neg hd]

/-- Same frame property for `ResNet18WithEmbeddingHead`. -/
lemma adapt_emb_shape_r18 (m : ResNet18WithEmbeddingHead) (nc0 nc : Nat)
    (hfc : m.fc_classes = PyModule.linear (nnLinear m.num_ftrs nc0)) (s : Shape4) :
    ((m.adapt nc).forwardShape s).map (fun t => t.2.1)
      = (m.forwardShape s).map (fun t => t.2.1) := by
  unfold ResNet18WithEmbeddingHead.forwardShape
  simp only [ResNet18WithEmbeddingHead.adapt]
  cases hmr : m.model_resnet.forwardShape s with
  | none => rfl
  | some x =>
      simp only [hfc, applyShape_linear]
      by_cases hd : x.d = m.num_ftrs
      · simp only [hd, if_pos rfl]
        cases he : PyModule.applyShape m.fc_emb x <;> simp [he]
      · simp only [if_neg hd]

/-- Same frame property for `WideResnetWithEmbeddingHead`. -/
lemma adapt_emb_shape_wrn (m : WideResnetWithEmbeddingHead) (nc0 nc : Nat)
    (hfc : m.fc_classes = PyModule.linear (nnLinear m.num_ftrs nc0)) (s : Shape4) :
    ((m.adapt nc).forwardShape s).map (fun t => t.2.1)
      = (m.forwardShape s).map (fun t => t.2.1) := by
  unfold WideResnetWithEmbeddingHead.forwardShape
  simp only [WideResnetWithEmbeddingHead.adapt]
  cases hmr : m.model_base.forwardShape s with
  | none => rfl
  | some x =>
      simp only [hfc, applyShape_linear]
      by_cases hd : x.d = m.num_ftrs
      · simp only [hd, if_pos rfl]
        cases he : PyModule.applyShape m.fc_emb x <;> simp [he]
      · simp only [if_neg hd]

/-! ### The claims -/

/-- C1: Constructing `WideResnetBackbone` (and hence `WideResnet`) with a
depth `n` such that `(n - 4) mod 6 ≠ 0` fails immediately with the
assertion error naming the violated condition, and construction succeeds
for every depth with `(n - 4) mod 6 = 0` (e.g. 16, 28, 40). -/
theorem claim_C1_depth_validation (k n n_classes : Nat) (dr : Rat) :
    (((n : Int) - 4) % 6 = 0 →
       (∃ bb, WideResnetBackbone.init k n dr = Except.ok bb) ∧
       (∃ m, WideResnet.init n_classes k n = Except.ok m)) ∧
    (((n : Int) - 4) % 6 ≠ 0 →
       WideResnetBackbone.init k n dr
         = Except.error (PyError.assertionError "(self.n - 4) % 6 == 0") ∧
       WideResnet.init n_classes k n
         = Except.error (PyError.assertionError "(self.n - 4) % 6 == 0")) := by
  constructor
  · intro hval
    refine ⟨⟨(WideResnetBackbone.initImpl k n dr).init_weight, ?_⟩, ?_⟩
    · unfold WideResnetBackbone.init
      rw [if_pos hval]
    · obtain ⟨m, hm, -⟩ := wideResnet_ok_forwardShape n_classes k n 1 1 1 hval
        (le_refl 1) (le_refl 1)
      exact ⟨m, hm⟩
  · intro hval
    have hbb : WideResnetBackbone.init k n 0
        = Except.error (PyError.assertionError "(self.n - 4) % 6 == 0") := by
      unfold WideResnetBackbone.init
      rw [if_neg hval]
    have hbbdr : WideResnetBackbone.init k n dr
        = Except.error (PyError.assertionError "(self.n - 4) % 6 == 0") := by
      unfold WideResnetBackbone.init
      rw [if_neg hval]
    refine ⟨hbbdr, ?_⟩
    unfold WideResnet.init
    rw [hbb]

/-- Witness for C1 at the concrete depths 28 (valid) and 15 (invalid). -/
theorem claim_C1_witness :
    (∃ bb, WideResnetBackbone.init 2 28 0 = Except.ok bb) ∧
    WideResnetBackbone.init 2 15 0
      = Except.error (PyError.assertionError "(self.n - 4) % 6 == 0") :=
  ⟨((claim_C1_depth_validation 2 28 10 0).1 (by decide)).1,
   ((claim_C1_depth_validation 2 15 10 0).2 (by decide)).1⟩

/-- C2 counterexample: depth `n = 4` satisfies the validity constraint
`(n - 4) mod 6 = 0`, construction succeeds, but each stage then contains
1 block while the claimed block count is `(4 - 4) / 6 = 0`. -/
theorem claim_C2_counterexample :
    backboneStageLens 1 4 0 = some (1, 1, 1) ∧ (4 - 4) / 6 = 0 := by
  exact ⟨rfl, rfl⟩

/-- C2 (amended: for every valid depth `n ≥ 10`; at the degenerate valid
depth `n = 4` each stage still contains one block, see the counterexample):
the backbone is built from base channel widths 16, 16k, 32k, 64k with
exactly `(n-4)/6` blocks per stage; stage 1 has stride 1, stages 2 and 3
stride 2, and within each stage only the first block carries the stage
stride while every later block has stride 1 and equal channel counts. -/
theorem claim_C2_stage_structure (k n : Nat) (dr : Rat)
    (hval : ((n : Int) - 4) % 6 = 0) (hn : 10 ≤ n) :
    ∃ bb, WideResnetBackbone.init k n dr = Except.ok bb ∧
      bb.conv1.in_chan = 3 ∧ bb.conv1.out_chan = 16 ∧
      bb.layer1.length = (n - 4) / 6 ∧
      bb.layer2.length = (n - 4) / 6 ∧
      bb.layer3.length = (n - 4) / 6 ∧
      bb.layer1.map blockSig
        = (16, 16 * k, 1) :: List.replicate ((n - 4) / 6 - 1) (16 * k, 16 * k, 1) ∧
      bb.layer2.map blockSig
        = (16 * k, 32 * k, 2) :: List.replicate ((n - 4) / 6 - 1) (32 * k, 32 * k, 1) ∧
      bb.layer3.map blockSig
        = (32 * k, 64 * k, 2) :: List.replicate ((n - 4) / 6 - 1) (64 * k, 64 * k, 1) := by
  have hinit : WideResnetBackbone.init k n dr
      = Except.ok (WideResnetBackbone.initImpl k n dr).init_weight := by
    unfold WideResnetBackbone.init
    rw [if_pos hval]
  have hnb : ((((n : Int) - 4) / 6)).toNat = (n - 4) / 6 := by omega
  have e1 : k * 16 * 2 ^ 0 = 16 * k := by ring
  have e2 : k * 16 * 2 ^ 1 = 32 * k := by ring
  have e3 : k * 16 * 2 ^ 2 = 64 * k := by ring
  refine ⟨_, hinit, rfl, rfl, ?_, ?_, ?_, ?_, ?_, ?_⟩
  · simp [WideResnetBackbone.init_weight, WideResnetBackbone.initImpl,
      WideResnetBackbone.create_layer, hnb]
    omega
  · simp [WideResnetBackbone.init_weight, WideResnetBackbone.initImpl,
      WideResnetBackbone.create_layer, hnb]
    omega
  · simp [WideResnetBackbone.init_weight, WideResnetBackbone.initImpl,
      WideResnetBackbone.create_layer, hnb]
    omega
  · show ((WideResnetBackbone.create_layer 16 (k * 16 * 2 ^ 0)
        ((((n : Int) - 4) / 6).toNat) 1 dr true).map
          BasicBlockPreAct.applyInitWeight).map blockSig = _
    rw [create_layer_sig, hnb, e1]
  · show ((WideResnetBackbone.create_layer (k * 16 * 2 ^ 0) (k * 16 * 2 ^ 1)
        ((((n : Int) - 4) / 6).toNat) 2 dr false).map
          BasicBlockPreAct.applyInitWeight).map blockSig = _
    rw [create_layer_sig, hnb, e1, e2]
  · show ((WideResnetBackbone.create_layer (k * 16 * 2 ^ 1) (k * 16 * 2 ^ 2)
        ((((n : Int) - 4) / 6).toNat) 2 dr false).map
          BasicBlockPreAct.applyInitWeight).map blockSig = _
    rw [create_layer_sig, hnb, e2, e3]

/-- Witness for C2 at `k = 2`, `n = 28`: four blocks per stage with the
expected channel/stride signatures. -/
theorem claim_C2_witness :
    ∃ bb, WideResnetBackbone.init 2 28 0 = Except.ok bb ∧
      bb.conv1.in_chan = 3 ∧ bb.conv1.out_chan = 16 ∧
      bb.layer1.length = 4 ∧ bb.layer2.length = 4 ∧ bb.layer3.length = 4 ∧
      bb.layer1.map blockSig = (16, 32, 1) :: List.replicate 3 (32, 32, 1) ∧
      bb.layer2.map blockSig = (32, 64, 2) :: List.replicate 3 (64, 64, 1) ∧
      bb.layer3.map blockSig = (64, 128, 2) :: List.replicate 3 (128, 128, 1) :=
  claim_C2_stage_structure 2 28 0 (by decide) (by decide)

/-- C3: For every embedding-head model (`ResNet50WithEmbeddingHead`,
`ResNet18WithEmbeddingHead`, `WideResnetWithEmbeddingHead`, each as
constructed), `adapt(nc)` replaces only the class-logit head (its output
dimension becomes `nc` while its input dimension stays `num_ftrs`); the
embedding head and all feature-extractor fields are unchanged, and the
embedding component of the forward output shape is unchanged for every
input. -/
theorem claim_C3_adapt (nc0 emb nc k n : Nat) (pre : Bool)
    (hval : ((n : Int) - 4) % 6 = 0) (hk : k < 4) :
    (∃ m, ResNet50WithEmbeddingHead.init nc0 emb pre = Except.ok m ∧
       (m.adapt nc).fc_classes = PyModule.linear (nnLinear m.num_ftrs nc) ∧
       (m.adapt nc).fc_emb = m.fc_emb ∧
       (m.adapt nc).model_resnet = m.model_resnet ∧
       (m.adapt nc).num_ftrs = m.num_ftrs ∧
       (∀ s, ((m.adapt nc).forwardShape s).map (fun t => t.2.1)
             = (m.forwardShape s).map (fun t => t.2.1))) ∧
    (∃ m, ResNet18WithEmbeddingHead.init nc0 emb pre = Except.ok m ∧
       (m.adapt nc).fc_classes = PyModule.linear (nnLinear m.num_ftrs nc) ∧
       (m.adapt nc).fc_emb = m.fc_emb ∧
       (m.adapt nc).model_resnet = m.model_resnet ∧
       (m.adapt nc).num_ftrs = m.num_ftrs ∧
       (∀ s, ((m.adapt nc).forwardShape s).map (fun t => t.2.1)
             = (m.forwardShape s).map (fun t => t.2.1))) ∧
    (∃ m, WideResnetWithEmbeddingHead.init nc0 k n emb = Except.ok m ∧
       (m.adapt nc).fc_classes = PyModule.linear (nnLinear m.num_ftrs nc) ∧
       (m.adapt nc).fc_emb = m.fc_emb ∧
       (m.adapt nc).model_base = m.model_base ∧
       (m.adapt nc).num_ftrs = m.num_ftrs ∧
       (∀ s, ((m.adapt nc).forwardShape s).map (fun t => t.2.1)
             = (m.forwardShape s).map (fun t => t.2.1))) := by
  refine ⟨?_, ?_, ?_⟩
  · refine ⟨_, rfl, rfl, rfl, rfl, rfl, ?_⟩
    intro s
    exact adapt_emb_shape_r50 _ nc0 nc rfl s
  · refine ⟨_, rfl, rfl, rfl, rfl, rfl, ?_⟩
    intro s
    exact adapt_emb_shape_r18 _ nc0 nc rfl s
  · obtain ⟨m, hm, hnf, hfc, hfe, hsh⟩ :=
      wrnWEH_ok_forwardShape nc0 k n emb 1 1 1 hval hk (le_refl 1) (le_refl 1)
    refine ⟨m, hm, rfl, rfl, rfl, rfl, ?_⟩
    intro s
    exact adapt_emb_shape_wrn m nc0 nc (by rw [hfc, hnf]) s

/-- Witness for C3: the `ResNet50WithEmbeddingHead` instance at concrete
parameters. -/
theorem claim_C3_witness :
    ∃ m, ResNet50WithEmbeddingHead.init 100 300 true = Except.ok m ∧
       (m.adapt 5).fc_classes = PyModule.linear (nnLinear m.num_ftrs 5) ∧
       (m.adapt 5).fc_emb = m.fc_emb ∧
       (m.adapt 5).model_resnet = m.model_resnet ∧
       (m.adapt 5).num_ftrs = m.num_ftrs ∧
       (∀ s, ((m.adapt 5).forwardShape s).map (fun t => t.2.1)
             = (m.forwardShape s).map (fun t => t.2.1)) :=
  (claim_C3_adapt 100 300 5 2 28 true (by decide) (by decide)).1

/-- C4: For every embedding-head variant and every input batch
`[N, 3, H, W]` with `H, W ≥ 1` (supported by the wrapped backbone),
forward returns the 3-tuple `(logits, embedding, pooledFeatures)` whose
shapes are `[N, numClasses]`, `[N, embDim]` and `[N, num_ftrs]`. -/
theorem claim_C4_forward_triple (nc emb k n N h w : Nat) (pre : Bool)
    (hval : ((n : Int) - 4) % 6 = 0) (hk : k < 4) (hh : 1 ≤ h) (hw : 1 ≤ w) :
    (∃ m, ResNet50WithEmbeddingHead.init nc emb pre = Except.ok m ∧
       m.forwardShape ⟨N, 3, h, w⟩
         = some (⟨N, nc⟩, ⟨N, emb⟩, ⟨N, m.num_ftrs⟩)) ∧
    (∃ m, ResNet18WithEmbeddingHead.init nc emb pre = Except.ok m ∧
       m.forwardShape ⟨N, 3, h, w⟩
         = some (⟨N, nc⟩, ⟨N, emb⟩, ⟨N, m.num_ftrs⟩)) ∧
    (∃ m, WideResnetWithEmbeddingHead.init nc k n emb = Except.ok m ∧
       m.forwardShape ⟨N, 3, h, w⟩
         = some (⟨N, nc⟩, ⟨N, emb⟩, ⟨N, m.num_ftrs⟩)) := by
  refine ⟨?_, ?_, ?_⟩
  · obtain ⟨m, hm, hnf, hsh⟩ := resnet50WEH_ok_forwardShape nc emb N h w pre hh hw
    exact ⟨m, hm, by rw [hsh, hnf]⟩
  · obtain ⟨m, hm, hnf, hsh⟩ := resnet18WEH_ok_forwardShape nc emb N h w pre hh hw
    exact ⟨m, hm, by rw [hsh, hnf]⟩
  · obtain ⟨m, hm, hnf, hfc, hfe, hsh⟩ :=
      wrnWEH_ok_forwardShape nc k n emb N h w hval hk hh hw
    exact ⟨m, hm, by rw [hsh, hnf]⟩

/-- Witness for C4: the `WideResnetWithEmbeddingHead` instance at concrete
parameters (k = 3, n = 28, batch 2 of 32x32 images). -/
theorem claim_C4_witness :
    ∃ m, WideResnetWithEmbeddingHead.init 100 3 28 128 = Except.ok m ∧
       m.forwardShape ⟨2, 3, 32, 32⟩
         = some (⟨2, 100⟩, ⟨2, 128⟩, ⟨2, m.num_ftrs⟩) :=
  (claim_C4_forward_triple 100 128 3 28 2 32 32 true
    (by decide) (by decide) (by decide) (by decide)).2.2

/-- C5: `WideResnet`'s classification head global-average-pools the final
backbone feature map (`torch.mean` over both spatial dimensions, embodied
in `WideResnet.forwardShape`) and then applies a single linear layer
`64k -> numClasses` when `k < 4` and the two-layer head
`64k -> 32k -> numClasses` otherwise; for every input batch `[N, 3, H, W]`
(with `H, W ≥ 1`) the forward pass produces logits of shape
`[N, numClasses]`. -/
theorem claim_C5_classifier (nc k n N h w : Nat)
    (hval : ((n : Int) - 4) % 6 = 0) (hh : 1 ≤ h) (hw : 1 ≤ w) :
    ∃ m, WideResnet.init nc k n = Except.ok m ∧
      (k < 4 → m.classifier = PyModule.linear (nnLinear (64 * k) nc)) ∧
      (4 ≤ k → m.classifier = PyModule.seqLinearReluLinear
          (nnLinear (64 * k) (32 * k)) (nnLinear (32 * k) nc)) ∧
      m.forwardShape ⟨N, 3, h, w⟩ = some ⟨N, nc⟩ := by
  obtain ⟨m, hm, hbb, hcls, hsh⟩ := wideResnet_ok_forwardShape nc k n N h w hval hh hw
  refine ⟨m, hm, ?_, ?_, hsh⟩
  · intro hk
    rw [hcls, if_pos hk]
  · intro hk
    rw [hcls, if_neg (by omega), show 64 * k / 2 = 32 * k from by omega]

/-- Witness for C5 at `k = 6` (the wide, two-layer-head branch), `n = 28`,
on a batch of two 32x32 images. -/
theorem claim_C5_witness :
    ∃ m, WideResnet.init 10 6 28 = Except.ok m ∧
      (6 < 4 → m.classifier = PyModule.linear (nnLinear (64 * 6) 10)) ∧
      (4 ≤ 6 → m.classifier = PyModule.seqLinearReluLinear
          (nnLinear (64 * 6) (32 * 6)) (nnLinear (32 * 6) 10)) ∧
      m.forwardShape ⟨2, 3, 32, 32⟩ = some ⟨2, 10⟩ :=
  claim_C5_classifier 10 6 28 2 32 32 (by decide) (by decide) (by decide)

/-- C6 counterexample: the first block of stage 1 of `WideResnetBackbone`
with `k = 1` has equal input/output channels (16) and stride 1, yet its
shortcut is NOT the raw block input (it is the post-activation value,
because the block is built with `pre_res_act=True`), refuting the claimed
"exactly when" characterisation for that block. -/
theorem claim_C6_counterexample :
    backboneFirstBlock 1 28 0
      = some ((BasicBlockPreAct.init 16 16 0 1 true).applyInitWeight) ∧
    ¬ (((BasicBlockPreAct.init 16 16 0 1 true).applyInitWeight.shortcutPart TExpr.input
          = TExpr.input) ↔ ((16 : Nat) = 16 ∧ (1 : Nat) = 1)) := by
  constructor
  · rfl
  · decide

/-- C6 (amended: the original "shortcut is the raw input exactly when
channels match and stride is 1" holds for every block with
`pre_res_act = false`, i.e. every block except the first block of the
first stage; for a `pre_res_act = true` block the shortcut branch starts
from the post-activation value instead, and the 1x1 projection with the
block stride is applied to that shortcut source exactly when channels
differ or the stride is not 1): the residual branch is
normalise-activate-convolve-normalise-activate-(optional dropout)-convolve
and the block output is the sum of shortcut and residual. -/
theorem claim_C6_block_structure (ic oc s : Nat) (dr : Rat) (pra : Bool) (x : TExpr) :
    (BasicBlockPreAct.init ic oc dr s pra).forward x
      = TExpr.add ((BasicBlockPreAct.init ic oc dr s pra).shortcutPart x)
          ((BasicBlockPreAct.init ic oc dr s pra).residualPart x) ∧
    (BasicBlockPreAct.init ic oc dr s pra).residualPart x
      = TExpr.conv (nnConv2d oc oc 3 1 1 false)
          (if dr = 0 then
             TExpr.relu (TExpr.bn (nnBatchNorm2d oc)
               (TExpr.conv (nnConv2d ic oc 3 s 1 false)
                 (TExpr.relu (TExpr.bn (nnBatchNorm2d ic) x))))
           else
             TExpr.dropout dr
               (TExpr.relu (TExpr.bn (nnBatchNorm2d oc)
                 (TExpr.conv (nnConv2d ic oc 3 s 1 false)
                   (TExpr.relu (TExpr.bn (nnBatchNorm2d ic) x)))))) ∧
    (BasicBlockPreAct.init ic oc dr s pra).shortcutSource x
      = (if pra then TExpr.relu (TExpr.bn (nnBatchNorm2d ic) x) else x) ∧
    ((ic = oc ∧ s = 1) →
       (BasicBlockPreAct.init ic oc dr s pra).shortcutPart x
         = (BasicBlockPreAct.init ic oc dr s pra).shortcutSource x) ∧
    (¬ (ic = oc ∧ s = 1) →
       (BasicBlockPreAct.init ic oc dr s pra).shortcutPart x
         = TExpr.conv (nnConv2d ic oc 1 s 0 false)
             ((BasicBlockPreAct.init ic oc dr s pra).shortcutSource x)) ∧
    (pra = false →
       ((BasicBlockPreAct.init ic oc dr s pra).shortcutPart x = x
          ↔ (ic = oc ∧ s = 1))) := by
  have hres : (BasicBlockPreAct.init ic oc dr s pra).residualPart x
      = TExpr.conv (nnConv2d oc oc 3 1 1 false)
          (if dr = 0 then
             TExpr.relu (TExpr.bn (nnBatchNorm2d oc)
               (TExpr.conv (nnConv2d ic oc 3 s 1 false)
                 (TExpr.relu (TExpr.bn (nnBatchNorm2d ic) x))))
           else
             TExpr.dropout dr
               (TExpr.relu (TExpr.bn (nnBatchNorm2d oc)
                 (TExpr.conv (nnConv2d ic oc 3 s 1 false)
                   (TExpr.relu (TExpr.bn (nnBatchNorm2d ic) x)))))) := by
    by_cases hdr : dr = 0
    · simp [BasicBlockPreAct.residualPart, BasicBlockPreAct.init, hdr]
    · simp [BasicBlockPreAct.residualPart, BasicBlockPreAct.init, hdr]
  have hsrc : (BasicBlockPreAct.init ic oc dr s pra).shortcutSource x
      = (if pra then TExpr.relu (TExpr.bn (nnBatchNorm2d ic) x) else x) := rfl
  have heq : (ic = oc ∧ s = 1) →
      (BasicBlockPreAct.init ic oc dr s pra).shortcutPart x
        = (BasicBlockPreAct.init ic oc dr s pra).shortcutSource x := by
    intro h
    have hcond : ¬ (ic ≠ oc ∨ s ≠ 1) := by tauto
    simp only [BasicBlockPreAct.shortcutPart, BasicBlockPreAct.init, if_neg hcond]
  have hne : ¬ (ic = oc ∧ s = 1) →
      (BasicBlockPreAct.init ic oc dr s pra).shortcutPart x
        = TExpr.conv (nnConv2d ic oc 1 s 0 false)
            ((BasicBlockPreAct.init ic oc dr s pra).shortcutSource x) := by
    intro h
    have hcond : ic ≠ oc ∨ s ≠ 1 := by tauto
    simp only [BasicBlockPreAct.shortcutPart, BasicBlockPreAct.init, if_pos hcond]
  refine ⟨rfl, hres, hsrc, heq, hne, ?_⟩
  intro hpf
  constructor
  · intro hsp
    by_contra hc
    rw [hne hc, hsrc, hpf] at hsp
    simp only [Bool.false_eq_true, if_false] at hsp
    exact TExpr.conv_ne_self _ _ hsp
  · intro hc
    rw [heq hc, hsrc, hpf]
    simp

/-- Witness for C6 at a downsampling block (16 -> 32 channels, stride 2,
`pre_res_act=False`): the 1x1 stride-2 projection is applied to the raw
input. -/
theorem claim_C6_witness :
    (BasicBlockPreAct.init 16 32 0 2 false).shortcutPart TExpr.input
      = TExpr.conv (nnConv2d 16 32 1 2 0 false)
          ((BasicBlockPreAct.init 16 32 0 2 false).shortcutSource TExpr.input) :=
  (claim_C6_block_structure 16 32 2 0 false TExpr.input).2.2.2.2.1 (by decide)

/-- C7: For every valid `(k, n)` and every input with both spatial sizes
positive and divisible by 4, `WideResnetBackbone.forward` returns a pair
`(intermediate, final)` whose shapes have exactly `32k` and `64k` channels
(independently of the spatial input size, which only scales the spatial
extents to `H/2, W/2` and `H/4, W/4`), the intermediate output being the
stage-2 feature map and the final output being the stage-3 map with the
last normalise-activate applied on top. -/
theorem claim_C7_backbone_outputs (k n N h w : Nat) (dr : Rat)
    (hval : ((n : Int) - 4) % 6 = 0) (h4 : h % 4 = 0) (w4 : w % 4 = 0)
    (hh : 1 ≤ h) (hw : 1 ≤ w) :
    ∃ bb, WideResnetBackbone.init k n dr = Except.ok bb ∧
      bb.forwardShape ⟨N, 3, h, w⟩
        = some (⟨N, 32 * k, h / 2, w / 2⟩, ⟨N, 64 * k, h / 4, w / 4⟩) ∧
      (∀ x, (bb.forward x).1
          = seqForward bb.layer2 (seqForward bb.layer1 (TExpr.conv bb.conv1 x))) ∧
      (∀ x, (bb.forward x).2
          = TExpr.relu (TExpr.bn bb.bn_last (seqForward bb.layer3 ((bb.forward x).1)))) := by
  obtain ⟨bb, hinit, hdef, hsh⟩ := backbone_ok_forwardShape k n N h w dr hval hh hw
  have e2h : spatialOut 2 h = h / 2 := spatialOut_two_even h (by omega)
  have e2w : spatialOut 2 w = w / 2 := spatialOut_two_even w (by omega)
  have e4h : spatialOut 2 (h / 2) = h / 4 := by
    rw [spatialOut_two_even (h / 2) (by omega)]
    omega
  have e4w : spatialOut 2 (w / 2) = w / 4 := by
    rw [spatialOut_two_even (w / 2) (by omega)]
    omega
  refine ⟨bb, hinit, ?_, fun x => rfl, fun x => rfl⟩
  rw [hsh, e2h, e2w, e4h, e4w]

/-- Witness for C7 at `k = 2`, `n = 28`, one 32x32 image. -/
theorem claim_C7_witness :
    ∃ bb, WideResnetBackbone.init 2 28 0 = Except.ok bb ∧
      bb.forwardShape ⟨1, 3, 32, 32⟩
        = some (⟨1, 64, 16, 16⟩, ⟨1, 128, 8, 8⟩) := by
  obtain ⟨bb, h0, h1, -, -⟩ := claim_C7_backbone_outputs 2 28 1 32 32 0
    (by decide) (by decide) (by decide) (by decide) (by decide)
  exact ⟨bb, h0, h1⟩

/-- C8: In every constructed backbone, `pre_res_act` is true for exactly
one block — the first block of the first stage — and false for every other
block of every stage; and when the flag is set, the shortcut branch of a
block starts from the post-activation value `act1` instead of the raw
block input (and from the raw input when it is not set). -/
theorem claim_C8_pre_res_act (k n : Nat) (dr : Rat)
    (hval : ((n : Int) - 4) % 6 = 0) :
    ∃ bb, WideResnetBackbone.init k n dr = Except.ok bb ∧
      bb.layer1.map BasicBlockPreAct.pre_res_act
        = true :: List.replicate ((n - 4) / 6 - 1) false ∧
      bb.layer2.map BasicBlockPreAct.pre_res_act
        = false :: List.replicate ((n - 4) / 6 - 1) false ∧
      bb.layer3.map BasicBlockPreAct.pre_res_act
        = false :: List.replicate ((n - 4) / 6 - 1) false ∧
      (∀ (b : BasicBlockPreAct) (x : TExpr), b.pre_res_act = true →
          b.shortcutSource x = TExpr.relu (TExpr.bn b.bn1 x)) ∧
      (∀ (b : BasicBlockPreAct) (x : TExpr), b.pre_res_act = false →
          b.shortcutSource x = x) := by
  have hinit : WideResnetBackbone.init k n dr
      = Except.ok (WideResnetBackbone.initImpl k n dr).init_weight := by
    unfold WideResnetBackbone.init
    rw [if_pos hval]
  have hnb : ((((n : Int) - 4) / 6)).toNat = (n - 4) / 6 := by omega
  refine ⟨_, hinit, ?_, ?_, ?_, ?_, ?_⟩
  · show ((WideResnetBackbone.create_layer 16 (k * 16 * 2 ^ 0)
        ((((n : Int) - 4) / 6).toNat) 1 dr true).map
          BasicBlockPreAct.applyInitWeight).map BasicBlockPreAct.pre_res_act = _
    rw [create_layer_pra, hnb]
  · show ((WideResnetBackbone.create_layer (k * 16 * 2 ^ 0) (k * 16 * 2 ^ 1)
        ((((n : Int) - 4) / 6).toNat) 2 dr false).map
          BasicBlockPreAct.applyInitWeight).map BasicBlockPreAct.pre_res_act = _
    rw [create_layer_pra, hnb]
  · show ((WideResnetBackbone.create_layer (k * 16 * 2 ^ 1) (k * 16 * 2 ^ 2)
        ((((n : Int) - 4) / 6).toNat) 2 dr false).map
          BasicBlockPreAct.applyInitWeight).map BasicBlockPreAct.pre_res_act = _
    rw [create_layer_pra, hnb]
  · intro b x hb
    simp [BasicBlockPreAct.shortcutSource, hb]
  · intro b x hb
    simp [BasicBlockPreAct.shortcutSource, hb]

/-- Witness for C8 at `k = 1`, `n = 10`: one block per stage, the flag set
exactly on the stage-1 block. -/
theorem claim_C8_witness :
    ∃ bb, WideResnetBackbone.init 1 10 0 = Except.ok bb ∧
      bb.layer1.map BasicBlockPreAct.pre_res_act = [true] ∧
      bb.layer2.map BasicBlockPreAct.pre_res_act = [false] ∧
      bb.layer3.map BasicBlockPreAct.pre_res_act = [false] := by
  obtain ⟨bb, h0, h1, h2, h3, -, -⟩ := claim_C8_pre_res_act 1 10 0 (by decide)
  exact ⟨bb, h0, h1, h2, h3⟩

/-- C9 counterexample: the classifier of `WideResnet(10, k=1, n=28)` keeps
the framework-default (uniform, non-zero) bias initialisation after
construction — `WideResnet.__init__` never calls any `init_weight` on the
classifier (the backbone initialises only its own submodules, and
`WideResnet.init_weight` is never invoked), so the classifier bias is NOT
zeroed. -/
theorem claim_C9_counterexample :
    wideResnetClassifierBiasInits 10 1 28 = some [LinInit.torchDefault] ∧
    LinInit.torchDefault ≠ LinInit.biasZeroed := by
  exact ⟨rfl, by decide⟩

/-- C9 (amended: weight initialisation is applied exactly once, at the end
of backbone construction, to the backbone's own modules only — every
backbone convolution gets the scaled-normal/He-style initialisation and
every backbone norm layer unit scale and zero bias — while the classifier
and head linear layers keep the framework-default initialisation, so their
biases are NOT zeroed after construction). -/
theorem claim_C9_weight_init (k n nc : Nat) (dr : Rat)
    (hval : ((n : Int) - 4) % 6 = 0) :
    (∃ bb, WideResnetBackbone.init k n dr = Except.ok bb ∧
       bb = (WideResnetBackbone.initImpl k n dr).init_weight ∧
       (∀ c ∈ bb.convList, c.winit = ConvInit.kaimingNormal) ∧
       (∀ b ∈ bb.bnList, b.winit = NormInit.unitScaleZeroBias)) ∧
    (∃ m, WideResnet.init nc k n = Except.ok m ∧
       (∀ c ∈ m.backbone.convList, c.winit = ConvInit.kaimingNormal) ∧
       (∀ b ∈ m.backbone.bnList, b.winit = NormInit.unitScaleZeroBias) ∧
       (∀ i ∈ m.classifier.linearBiasInits, i = LinInit.torchDefault)) := by
  have hinit : WideResnetBackbone.init k n dr
      = Except.ok (WideResnetBackbone.initImpl k n dr).init_weight := by
    unfold WideResnetBackbone.init
    rw [if_pos hval]
  have hinit0 : WideResnetBackbone.init k n 0
      = Except.ok (WideResnetBackbone.initImpl k n 0).init_weight := by
    unfold WideResnetBackbone.init
    rw [if_pos hval]
  constructor
  · exact ⟨_, hinit, rfl, init_weight_convList _, init_weight_bnList _⟩
  · refine ⟨{ n_layers := n, k := k
            , backbone := (WideResnetBackbone.initImpl k n 0).init_weight
            , classifier := if k < 4 then PyModule.linear (nnLinear (64 * k) nc)
                            else PyModule.seqLinearReluLinear
                                   (nnLinear (64 * k) (64 * k / 2))
                                   (nnLinear (64 * k / 2) nc) },
        ?_, init_weight_convList _, init_weight_bnList _, ?_⟩
    · unfold WideResnet.init
      rw [hinit0]
    · intro i hi
      by_cases hk : k < 4
      · simp [hk, PyModule.linearBiasInits, nnLinear] at hi
        exact hi
      · simp [hk, PyModule.linearBiasInits, nnLinear] at hi
        exact hi

/-- Witness for C9 at `k = 1`, `n = 28`, 10 classes. -/
theorem claim_C9_witness :
    ∃ bb, WideResnetBackbone.init 1 28 0 = Except.ok bb ∧
      bb = (WideResnetBackbone.initImpl 1 28 0).init_weight := by
  obtain ⟨⟨bb, h0, h1, -, -⟩, -⟩ := claim_C9_weight_init 1 28 10 0 (by decide)
  exact ⟨bb, h0, h1⟩

/-- C10 counterexample: with `k = 4` and the invalid depth `n = 15`,
construction of `WideResnetWithEmbeddingHead` fails with the backbone's
`AssertionError`, not an `AttributeError` — so "always fails with an
attribute error" does not hold as stated. -/
theorem claim_C10_counterexample :
    wrnWEHInitError 100 4 15 128
      = some (PyError.assertionError "(self.n - 4) % 6 == 0") ∧
    (PyError.assertionError "(self.n - 4) % 6 == 0").isAttributeError = false := by
  exact ⟨rfl, rfl⟩

/-- C10 (amended: with `k ≥ 4` and a VALID depth, construction always
fails with the `AttributeError` raised by reading `in_features` from the
two-layer `Sequential` classifier; with an invalid depth the backbone
assertion fails first.  Construction succeeds only for `k < 4`, and does
succeed for every `k < 4` with valid depth — even though `WideResnet`
itself constructs for `k ≥ 4`, compare the two-layer branch in C5). -/
theorem claim_C10_wide_head (nc k n emb : Nat) :
    (4 ≤ k → ((n : Int) - 4) % 6 = 0 →
       WideResnetWithEmbeddingHead.init nc k n emb
         = Except.error
             (PyError.attributeError "Sequential object has no attribute in_features")) ∧
    (∀ m, WideResnetWithEmbeddingHead.init nc k n emb = Except.ok m → k < 4) ∧
    (k < 4 → ((n : Int) - 4) % 6 = 0 →
       ∃ m, WideResnetWithEmbeddingHead.init nc k n emb = Except.ok m) := by
  have herr : ∀ e, WideResnetBackbone.init k n 0 = Except.error e →
      WideResnetWithEmbeddingHead.init nc k n emb = Except.error e := by
    intro e he
    unfold WideResnetWithEmbeddingHead.init WideResnet.init
    rw [he]
  have hattr : 4 ≤ k → ((n : Int) - 4) % 6 = 0 →
      WideResnetWithEmbeddingHead.init nc k n emb
        = Except.error
            (PyError.attributeError "Sequential object has no attribute in_features") := by
    intro hk hval
    have hinit : WideResnetBackbone.init k n 0
        = Except.ok (WideResnetBackbone.initImpl k n 0).init_weight := by
      unfold WideResnetBackbone.init
      rw [if_pos hval]
    unfold WideResnetWithEmbeddingHead.init WideResnet.init
    rw [hinit, if_neg (by omega : ¬ k < 4)]
    rfl
  refine ⟨hattr, ?_, ?_⟩
  · intro m hm
    by_contra hk
    push_neg at hk
    by_cases hval : ((n : Int) - 4) % 6 = 0
    · rw [hattr hk hval] at hm
      simp at hm
    · have hberr : WideResnetBackbone.init k n 0
          = Except.error (PyError.assertionError "(self.n - 4) % 6 == 0") := by
        unfold WideResnetBackbone.init
        rw [if_neg hval]
      rw [herr _ hberr] at hm
      simp at hm
  · intro hk hval
    obtain ⟨m, hm, -, -, -, -⟩ :=
      wrnWEH_ok_forwardShape nc k n emb 1 1 1 hval hk (le_refl 1) (le_refl 1)
    exact ⟨m, hm⟩

/-- Witness for C10: at `k = 4` with the valid depth 28, construction
fails with the `AttributeError`. -/
theorem claim_C10_witness :
    WideResnetWithEmbeddingHead.init 100 4 28 128
      = Except.error
          (PyError.attributeError "Sequential object has no attribute in_features") :=
  (claim_C10_wide_head 100 4 28 128).1 (by decide) (by decide)

end SemMatch
